import Mathlib

set_option maxHeartbeats 1000000
set_option maxRecDepth 4000

/-! Verification development for the ujrpc Python client
(`src/ujrpc/client.py`): a shallow embedding of its binary payload codec,
envelope building, response handling, socket liveness probing, connection
reuse, and HTTP framing, together with theorems about the documented
behaviour.  External collaborators (the numpy / PIL serializers, the JSON
text encoder, the OS socket) are modelled as parameters or small state
machines following the boundary contracts the library relies on. -/

/-- Scalar JSON values as they appear in request and response envelopes.
Codec-encoded binary payloads appear as `str` values; a Python `str` is
modelled as a list of characters. -/
inductive Json where
  | null
  | boolean (b : Bool)
  | num (n : Int)
  | str (s : List Char)
deriving DecidableEq

/-- Failure modes of the client, one constructor per exception the source
can raise: `RuntimeError(self.data['error'])`, `KeyError` on a missing
`result`, binascii / numpy / PIL decode failures, the mixed-arguments
assertion, socket-level `OSError`, and the `ValueError` from
`bytes.index` when the header/body separator is missing. -/
inductive ClientError where
  | invocationError (descriptor : Json)
  | keyError
  | decodeError
  | usageError
  | connectionError
  | framingError
deriving DecidableEq

/-- The base64 alphabet as an index-to-character map, as used by
`base64.b64encode` in `Request._pack_numpy` / `Request._pack_pillow`. -/
def sextetChar (n : Nat) : Char :=
  if n < 26 then Char.ofNat (65 + n)
  else if n < 52 then Char.ofNat (97 + (n - 26))
  else if n < 62 then Char.ofNat (48 + (n - 52))
  else if n = 62 then '+'
  else '/'

/-- Inverse of the base64 alphabet: the sextet value of a character,
`none` for characters outside the alphabet (in particular for `=`). -/
def charSextet (c : Char) : Option Nat :=
  if 65 ≤ c.toNat ∧ c.toNat ≤ 90 then some (c.toNat - 65)
  else if 97 ≤ c.toNat ∧ c.toNat ≤ 122 then some (c.toNat - 97 + 26)
  else if 48 ≤ c.toNat ∧ c.toNat ≤ 57 then some (c.toNat - 48 + 52)
  else if c = '+' then some 62
  else if c = '/' then some 63
  else none

/-- `base64.b64encode` on a byte string: each group of three input bytes
becomes four alphabet characters; a final group of one or two bytes is
completed with `=` padding. -/
def b64encode : List Nat → List Char
  | [] => []
  | [a] => [sextetChar (a / 4), sextetChar (a % 4 * 16), '=', '=']
  | [a, b] => [sextetChar (a / 4), sextetChar (a % 4 * 16 + b / 16),
               sextetChar (b % 16 * 4), '=']
  | a :: b :: c :: rest =>
    sextetChar (a / 4) :: sextetChar (a % 4 * 16 + b / 16) ::
      sextetChar (b % 16 * 4 + c / 64) :: sextetChar (c % 64) :: b64encode rest

/-- `base64.b64decode` restricted to well-formed inputs: groups of four
alphabet characters, with `=` padding allowed only at the very end.
Inputs outside this shape (wrong length, stray characters, interior
padding) yield `none`, matching the `binascii.Error` raised by Python. -/
def b64decode : List Char → Option (List Nat)
  | [] => some []
  | w :: x :: y :: z :: rest =>
    (charSextet w).bind fun a =>
    (charSextet x).bind fun b =>
    if y = '=' then
      if z = '=' ∧ rest = [] then some [a * 4 + b / 16] else none
    else
      (charSextet y).bind fun c =>
      if z = '=' then
        if rest = [] then some [a * 4 + b / 16, b % 16 * 16 + c / 4] else none
      else
        (charSextet z).bind fun d =>
        (b64decode rest).map fun tail =>
          (a * 4 + b / 16) :: (b % 16 * 16 + c / 4) :: (c % 4 * 64 + d) :: tail
  | _ => none

/-- A PIL image at the granularity this client observes: a format tag
(`None` or a format name) and opaque pixel data of type `Pix`. -/
structure PImage (Pix : Type) where
  format : Option String
  pix : Pix
deriving DecidableEq

/-- A parameter value of a call.  `Arr` is the type of numpy arrays and
`Pix` the pixel data of PIL images; both are opaque to the client, which
only dispatches on them by runtime type.  `str` is the codec-encoded
text form that replaces a binary value in a packed envelope. -/
inductive PVal (Arr Pix : Type) where
  | scalar (j : Json)
  | nparray (a : Arr)
  | image (img : PImage Pix)
  | str (s : List Char)
deriving DecidableEq

/-- The `params` member of an envelope: an ordered sequence for
positional calls or a name-to-value mapping for keyword calls. -/
inductive Params (Arr Pix : Type) where
  | positional (l : List (PVal Arr Pix))
  | keyword (l : List (String × PVal Arr Pix))
deriving DecidableEq

/-- A JSON-RPC request envelope as built by `Client.__getattr__` and
completed by `Client._send` (which fills in `id`). -/
structure Envelope (Arr Pix : Type) where
  method : String
  params : Params Arr Pix
  jsonrpc : String
  id : Option Nat
deriving DecidableEq

/-- `Request._pack_numpy`: serialize the array with the numpy primitive
(`np.save` into a fresh buffer, modelled by the parameter `npSave`) and
base64-encode the resulting bytes. -/
def Request.pack_numpy {Arr : Type} (npSave : Arr → List Nat) (a : Arr) : List Char :=
  b64encode (npSave a)

/-- `Request._pack_pillow`: if the image carries no format tag, set its
`format` attribute to `'tiff'` (an in-place mutation of the caller's
image, returned here as the first component), then serialize with the
PIL primitive (`image.save`, modelled by `imgSave` applied to the format
and the pixel data) and base64-encode the bytes. -/
def Request.pack_pillow {Pix : Type} (imgSave : String → Pix → List Nat)
    (img : PImage Pix) : PImage Pix × List Char :=
  match img.format with
  | none => (⟨some "tiff", img.pix⟩, b64encode (imgSave "tiff" img.pix))
  | some f => (img, b64encode (imgSave f img.pix))

/-- One step of `Request.pack`'s loop body: a value recognized as an
ndarray or a PIL image is replaced by its codec-encoded text form; every
other value is left unchanged. -/
def Request.packVal {Arr Pix : Type} (npSave : Arr → List Nat)
    (imgSave : String → Pix → List Nat) : PVal Arr Pix → PVal Arr Pix
  | .nparray a => .str (Request.pack_numpy npSave a)
  | .image img => .str ((Request.pack_pillow imgSave img).2)
  | v => v

/-- `Request.pack`'s loop over `req['params']`: iterate the keys of a
mapping or the indices of a sequence, replacing structured binary values
in place. -/
def Request.pack {Arr Pix : Type} (npSave : Arr → List Nat)
    (imgSave : String → Pix → List Nat) : Params Arr Pix → Params Arr Pix
  | .positional l => .positional (l.map (Request.packVal npSave imgSave))
  | .keyword l => .keyword (l.map fun kv => (kv.1, Request.packVal npSave imgSave kv.2))

/-- The effect of `Request.pack` on the whole request dict: only the
values inside `params` change. -/
def Request.packEnvelope {Arr Pix : Type} (npSave : Arr → List Nat)
    (imgSave : String → Pix → List Nat) (e : Envelope Arr Pix) : Envelope Arr Pix :=
  { e with params := Request.pack npSave imgSave e.params }

/-- A heap of envelope dict objects, addressed by index.  Python
references to a request dict are modelled as indices into this heap, so
that aliasing between `Request.data` and `Request.packed` is
observable. -/
structure EnvHeap (Arr Pix : Type) where
  objs : List (Envelope Arr Pix)
deriving DecidableEq

/-- The two attributes of a `Request` instance, each a reference (heap
address) to an envelope dict. -/
structure RequestObj where
  data : Nat
  packed : Nat
deriving DecidableEq

/-- `Request.__init__(self, json)`: `self.data = json` stores the
caller's reference; `self.packed = self.pack(json)` mutates the dict at
that same address in place (`req['params'][k] = ...`) and stores the
reference `pack` returns, which is the argument itself.  The heap is
updated at address `a` and both attributes hold `a`. -/
def Request.init {Arr Pix : Type} (npSave : Arr → List Nat)
    (imgSave : String → Pix → List Nat) (h : EnvHeap Arr Pix) (a : Nat) :
    EnvHeap Arr Pix × RequestObj :=
  (⟨h.objs.set a (Request.packEnvelope npSave imgSave
      (h.objs.getD a ⟨"", Params.positional [], "", none⟩))⟩,
   ⟨a, a⟩)

/-- A decoded JSON-RPC response: the mapping parsed from the server's
reply, as wrapped by `Response.__init__`. -/
structure Response where
  data : List (String × Json)
deriving DecidableEq

/-- `Response.raise_error`: raise `RuntimeError(self.data['error'])` when
the `error` key is present, otherwise do nothing. -/
def Response.raise_error (r : Response) : Except ClientError Unit :=
  match r.data.lookup "error" with
  | some e => .error (.invocationError e)
  | none => .ok ()

/-- `Response.raise_or_get`: check for `error` first, then return
`self.data['result']` (a missing `result` key is a `KeyError`). -/
def Response.raise_or_get (r : Response) : Except ClientError Json :=
  match r.raise_error with
  | .error e => .error e
  | .ok _ =>
    match r.data.lookup "result" with
    | some v => .ok v
    | none => .error .keyError

/-- `Response.as_bytes`: base64-decode the unwrapped result.  A non-text
result or malformed base64 fails with a decode error, as
`base64.b64decode` does. -/
def Response.as_bytes (r : Response) : Except ClientError (List Nat) :=
  match r.raise_or_get with
  | .error e => .error e
  | .ok (.str s) =>
    match b64decode s with
    | some bs => .ok bs
    | none => .error .decodeError
  | .ok _ => .error .decodeError

/-- `Response.as_numpy`: `np.load` (modelled by `npLoad`) over the
decoded bytes; a parse failure is a decode error. -/
def Response.as_numpy {Arr : Type} (npLoad : List Nat → Option Arr)
    (r : Response) : Except ClientError Arr :=
  match r.as_bytes with
  | .error e => .error e
  | .ok bs =>
    match npLoad bs with
    | some a => .ok a
    | none => .error .decodeError

/-- `Response.as_image`: `Image.open` (modelled by `imgLoad`) over the
decoded bytes; a parse failure is a decode error. -/
def Response.as_image {Pix : Type} (imgLoad : List Nat → Option (PImage Pix))
    (r : Response) : Except ClientError (PImage Pix) :=
  match r.as_bytes with
  | .error e => .error e
  | .ok bs =>
    match imgLoad bs with
    | some img => .ok img
    | none => .error .decodeError

/-- The errno value `EAGAIN`, against which `_socket_is_closed` compares
a `BlockingIOError`. -/
def eAGAIN : Nat := 11

/-- A TCP socket at the granularity this client observes: a connection
identity, the bytes currently available to read, and whether the peer
has performed an orderly half-close. -/
structure Sock where
  id : Nat
  recvBuf : List Nat
  peerClosed : Bool
deriving DecidableEq

/-- What a call to `socket.recv` can produce: bytes (empty on an orderly
peer close), a `BlockingIOError` with an errno, or some other
`OSError`. -/
inductive RecvOutcome where
  | bytes (bs : List Nat)
  | blockingIOError (errno : Nat)
  | osError
deriving DecidableEq

/-- Modelled from the spec's socket collaborator contract:
`sock.recv(1, socket.MSG_PEEK | socket.MSG_DONTWAIT)`.  `MSG_PEEK` leaves
the receive buffer untouched (the returned socket state is unchanged);
`MSG_DONTWAIT` turns "no data yet, peer open" into
`BlockingIOError(EAGAIN)`; an orderly peer half-close with an empty
buffer yields zero bytes. -/
def Sock.recvPeekDontwait (s : Sock) : RecvOutcome × Sock :=
  match s.recvBuf with
  | [] =>
    if s.peerClosed then (RecvOutcome.bytes [], s)
    else (RecvOutcome.blockingIOError eAGAIN, s)
  | b :: _ => (RecvOutcome.bytes [b], s)

/-- The body of `_socket_is_closed` after the peek, as a function of the
peek's outcome: zero bytes means closed; data means open; a
`BlockingIOError` is swallowed only when its errno is `EAGAIN` (open),
otherwise re-raised; any other `OSError` is not caught at all. -/
def socket_is_closed_body : RecvOutcome → Except ClientError Bool
  | .bytes [] => .ok true
  | .bytes (_ :: _) => .ok false
  | .blockingIOError e => if e ≠ eAGAIN then .error .connectionError else .ok false
  | .osError => .error .connectionError

/-- `_socket_is_closed(sock)`: `None` counts as closed; otherwise probe
with a non-blocking, non-consuming one-byte peek. -/
def socket_is_closed : Option Sock → Except ClientError Bool
  | none => .ok true
  | some s => socket_is_closed_body (s.recvPeekDontwait).1

/-- `_make_tcp_socket`: a fresh connection, carrying a fresh identity
(the number of connections opened so far), with nothing yet received and
an open peer. -/
def make_tcp_socket (cid : Nat) : Sock :=
  ⟨cid, [], false⟩

/-- The connection state a `Client` instance owns: the optional socket
handle, plus an instrumentation counter of how many TCP connections have
been opened (so "no new connect" and "exactly one reconnect" are
observable). -/
structure ConnState where
  sock : Option Sock
  connects : Nat
deriving DecidableEq

/-- The connection-management line of `Client._send`:
`self.sock = _make_tcp_socket(...) if _socket_is_closed(self.sock) else
self.sock`.  An error raised by the probe propagates. -/
def ensure_connected (st : ConnState) : Except ClientError ConnState :=
  match socket_is_closed st.sock with
  | .error e => .error e
  | .ok true => .ok ⟨some (make_tcp_socket st.connects), st.connects + 1⟩
  | .ok false => .ok st

/-- The parameter-style resolution in `Client.__getattr__`'s `call`
closure: keyword arguments by default; positional arguments if any are
present, in which case the assertion rejects a call that also carries
keyword arguments. -/
def facadeParams {Arr Pix : Type} (args : List (PVal Arr Pix))
    (kwargs : List (String × PVal Arr Pix)) : Except ClientError (Params Arr Pix) :=
  if args.length ≠ 0 then
    if kwargs.length = 0 then .ok (Params.positional args) else .error .usageError
  else .ok (Params.keyword kwargs)

/-- A decimal digit character. -/
def digitChar : Nat → Char
  | 0 => '0'
  | 1 => '1'
  | 2 => '2'
  | 3 => '3'
  | 4 => '4'
  | 5 => '5'
  | 6 => '6'
  | 7 => '7'
  | 8 => '8'
  | _ => '9'

/-- Decimal rendering of a natural number, as Python's `%i` formatting
produces for a non-negative value. -/
def natChars (n : Nat) : List Char :=
  if _h : n < 10 then [digitChar n]
  else natChars (n / 10) ++ [digitChar (n % 10)]
termination_by n
decreasing_by exact Nat.div_lt_self (by omega) (by omega)

/-- The `http_template` f-string of `Client.__init__`, with the
`Content-Length` value substituted for the `%i` placeholder. -/
def httpTemplate (uri : String) (port : Nat) (contentLength : Nat) : List Char :=
  ("POST / HTTP/1.1\r\nHost: ").data ++ uri.data ++ (":").data ++ natChars port
    ++ ("\r\nUser-Agent: py-ujrpc\r\nAccept: */*\r\nConnection: keep-alive\r\nContent-Length: ").data
    ++ natChars contentLength
    ++ ("\r\nContent-Type: application/json\r\n\r\n").data

/-- UTF-8 encoding of a character sequence, as `str.encode()` performs
on the assembled request text. -/
def utf8Bytes : List Char → List Nat
  | [] => []
  | c :: cs =>
    (if c.toNat < 128 then [c.toNat]
     else if c.toNat < 2048 then [192 + c.toNat / 64, 128 + c.toNat % 64]
     else if c.toNat < 65536 then
       [224 + c.toNat / 4096, 128 + c.toNat / 64 % 64, 128 + c.toNat % 64]
     else
       [240 + c.toNat / 262144, 128 + c.toNat / 4096 % 64,
        128 + c.toNat / 64 % 64, 128 + c.toNat % 64])
      ++ utf8Bytes cs

/-- The byte rendering of a string all of whose characters are ASCII. -/
def bytesOf (s : String) : List Nat :=
  s.data.map Char.toNat

/-- The full send path of one facade invocation, through
`Client.__getattr__`'s argument check, envelope construction,
`Client._send`'s id assignment, in-place packing, JSON serialization
(the external `json.dumps`, passed in as `dumps`), optional HTTP
framing, connection management, and the final `sock.send` of the UTF-8
encoded text (returned here as the transmitted bytes). -/
def Client.callMethodSend {Arr Pix : Type} (npSave : Arr → List Nat)
    (imgSave : String → Pix → List Nat) (dumps : Envelope Arr Pix → List Char)
    (use_http : Bool) (uri : String) (port : Nat) (idv : Nat) (st : ConnState)
    (method : String) (args : List (PVal Arr Pix))
    (kwargs : List (String × PVal Arr Pix)) :
    Except ClientError (ConnState × List Nat) :=
  match facadeParams args kwargs with
  | .error e => .error e
  | .ok ps =>
    let env : Envelope Arr Pix := ⟨method, ps, "2.0", some idv⟩
    let packed := Request.packEnvelope npSave imgSave env
    let request := dumps packed
    let request := if use_http then httpTemplate uri port request.length ++ request
                   else request
    match ensure_connected st with
    | .error e => .error e
    | .ok st2 => .ok (st2, utf8Bytes request)

/-- `bytes.index(b'\r\n\r\n')` on the accumulated response: the index of
the first occurrence of the blank-line separator, `none` when it is
absent (Python raises `ValueError`). -/
def indexOfSep : List Nat → Option Nat
  | [] => none
  | b :: rest =>
    if (b :: rest).take 4 = [13, 10, 13, 10] then some 0
    else (indexOfSep rest).map (fun i => i + 1)

/-- The bytes strictly after the first occurrence of the blank-line
separator, `none` when the separator is absent.  This is the reference
meaning of "the JSON body that follows the header block". -/
def afterSepB : List Nat → Option (List Nat)
  | [] => none
  | b :: rest =>
    if (b :: rest).take 4 = [13, 10, 13, 10] then some (rest.drop 3)
    else afterSepB rest

/-- The HTTP branch of `Client._recv`: slice the accumulated response at
`response_bytes.index(b'\r\n\r\n')` and hand the slice to the JSON
parser; a missing separator is a fatal framing error. -/
def recvSliceHttp (response_bytes : List Nat) : Except ClientError (List Nat) :=
  match indexOfSep response_bytes with
  | some i => .ok (response_bytes.drop i)
  | none => .error .framingError

/-- A serializer instance for witnesses: a one-byte encoding of `Bool`
array values. -/
def boolSave (b : Bool) : List Nat :=
  [if b then 1 else 0]

/-- The inverse of `boolSave`, for witnesses. -/
def boolLoad : List Nat → Option Bool
  | [0] => some false
  | [1] => some true
  | _ => none

/-- An image serializer instance for witnesses: one byte of pixel data,
format recorded out of band. -/
def boolImgSave (_fmt : String) (p : Bool) : List Nat :=
  [if p then 1 else 0]

/-- An image parser matching `boolImgSave` for TIFF-tagged images, for
witnesses. -/
def boolImgLoad : List Nat → Option (PImage Bool)
  | [0] => some ⟨some "tiff", false⟩
  | [1] => some ⟨some "tiff", true⟩
  | _ => none

/-- The alphabet map and its inverse cancel on every sextet value. -/
theorem charSextet_sextetChar : ∀ n, n < 64 → charSextet (sextetChar n) = some n := by
  decide

/-- No alphabet character is the padding character. -/
theorem sextetChar_ne_pad : ∀ n, n < 64 → sextetChar n ≠ '=' := by
  decide

/-- Base64 round-trip: decoding an encoded byte string returns the
original bytes. -/
theorem b64_roundtrip : ∀ l : List Nat, (∀ b ∈ l, b < 256) →
    b64decode (b64encode l) = some l
  | [], _ => by simp [b64encode, b64decode]
  | [a], h => by
    have ha : a < 256 := h a (by simp)
    simp only [b64encode, b64decode]
    rw [charSextet_sextetChar _ (by omega), charSextet_sextetChar _ (by omega)]
    simp
    omega
  | [a, b], h => by
    have ha : a < 256 := h a (by simp)
    have hb : b < 256 := h b (by simp)
    simp only [b64encode, b64decode]
    rw [charSextet_sextetChar _ (by omega), charSextet_sextetChar _ (by omega)]
    simp only [Option.some_bind]
    rw [if_neg (sextetChar_ne_pad _ (by omega)), charSextet_sextetChar _ (by omega)]
    simp
    omega
  | a :: b :: c :: rest, h => by
    have ha : a < 256 := h a (by simp)
    have hb : b < 256 := h b (by simp)
    have hc : c < 256 := h c (by simp)
    have ih := b64_roundtrip rest (fun x hx =>
      h x (List.mem_cons_of_mem _ (List.mem_cons_of_mem _ (List.mem_cons_of_mem _ hx))))
    simp only [b64encode, b64decode]
    rw [charSextet_sextetChar _ (by omega), charSextet_sextetChar _ (by omega)]
    simp only [Option.some_bind]
    rw [if_neg (sextetChar_ne_pad _ (by omega)), charSextet_sextetChar _ (by omega)]
    simp only [Option.some_bind]
    rw [if_neg (sextetChar_ne_pad _ (by omega)), charSextet_sextetChar _ (by omega)]
    simp only [Option.some_bind]
    rw [ih]
    simp only [Option.map_some', Option.some.injEq, List.cons.injEq, and_true]
    refine ⟨by omega, by omega, by omega⟩

/-- Unwrapping a response whose mapping has an `error` entry raises the
invocation error carrying that entry's value. -/
theorem raise_or_get_error (r : Response) (e : Json)
    (h : r.data.lookup "error" = some e) :
    r.raise_or_get = Except.error (ClientError.invocationError e) := by
  unfold Response.raise_or_get Response.raise_error
  simp [h]

/-- `as_bytes` on a response whose `error` entry is present fails with
the invocation error before any decoding. -/
theorem as_bytes_error (r : Response) (e : Json)
    (h : r.data.lookup "error" = some e) :
    r.as_bytes = Except.error (ClientError.invocationError e) := by
  unfold Response.as_bytes
  rw [raise_or_get_error r e h]

/-- C2: for every well-formed response mapping (exactly one of `result`
and `error` present), `raise_or_get` fails if and only if the `error`
key is present; on failure the raised error carries the server-supplied
error descriptor verbatim, and on success it returns the `result` value
unchanged. -/
theorem C2_unwrap (r : Response)
    (hwf : (r.data.lookup "error").isSome = ! (r.data.lookup "result").isSome) :
    ((∃ err, r.raise_or_get = Except.error err) ↔ (r.data.lookup "error").isSome)
    ∧ (∀ e, r.data.lookup "error" = some e →
        r.raise_or_get = Except.error (ClientError.invocationError e))
    ∧ (∀ v, r.data.lookup "result" = some v → r.data.lookup "error" = none →
        r.raise_or_get = Except.ok v) := by
  refine ⟨?_, fun e he => raise_or_get_error r e he, ?_⟩
  · cases herr : r.data.lookup "error" with
    | some e =>
      rw [raise_or_get_error r e herr]
      simp
    | none =>
      cases hres : r.data.lookup "result" with
      | some v =>
        unfold Response.raise_or_get Response.raise_error
        simp [herr, hres]
      | none =>
        rw [herr, hres] at hwf
        simp at hwf
  · intro v hres herr
    unfold Response.raise_or_get Response.raise_error
    simp [herr, hres]

/-- C2 witness: a concrete successful response and a concrete error
response, run through the theorem. -/
theorem C2_witness :
    ((((Response.mk [("result", Json.num 5)]).data.lookup "error").isSome
        = ! (((Response.mk [("result", Json.num 5)]).data.lookup "result").isSome))
    ∧ (Response.mk [("result", Json.num 5)]).raise_or_get = Except.ok (Json.num 5))
    ∧ (Response.mk [("error", Json.str ("bad params").data)]).raise_or_get
        = Except.error (ClientError.invocationError (Json.str ("bad params").data)) := by
  refine ⟨⟨by decide, ?_⟩, ?_⟩
  · exact (C2_unwrap (Response.mk [("result", Json.num 5)]) (by decide)).2.2
      (Json.num 5) rfl rfl
  · exact (C2_unwrap (Response.mk [("error", Json.str ("bad params").data)])
      (by decide)).2.1 (Json.str ("bad params").data) rfl

/-- C10: every typed decode helper raises the invocation error carrying
the server's descriptor whenever the response has an `error` entry, so a
decode error can only arise from a response without one. -/
theorem C10_typed_decode {Arr Pix : Type} (npLoad : List Nat → Option Arr)
    (imgLoad : List Nat → Option (PImage Pix)) :
    (∀ (r : Response) (e : Json), r.data.lookup "error" = some e →
        r.as_bytes = Except.error (ClientError.invocationError e)
        ∧ Response.as_numpy npLoad r = Except.error (ClientError.invocationError e)
        ∧ Response.as_image imgLoad r = Except.error (ClientError.invocationError e))
    ∧ (∀ r : Response, r.as_bytes = Except.error ClientError.decodeError →
        r.data.lookup "error" = none) := by
  constructor
  · intro r e he
    have hb := as_bytes_error r e he
    refine ⟨hb, ?_, ?_⟩
    · unfold Response.as_numpy
      rw [hb]
    · unfold Response.as_image
      rw [hb]
  · intro r hdec
    cases he : r.data.lookup "error" with
    | none => rfl
    | some e =>
      rw [as_bytes_error r e he] at hdec
      exact absurd hdec (by simp)

/-- C10 witness: a concrete error response run through each helper. -/
theorem C10_witness :
    ((Response.mk [("error", Json.num 3)]).data.lookup "error" = some (Json.num 3))
    ∧ (Response.mk [("error", Json.num 3)]).as_bytes
        = Except.error (ClientError.invocationError (Json.num 3))
    ∧ Response.as_numpy boolLoad (Response.mk [("error", Json.num 3)])
        = Except.error (ClientError.invocationError (Json.num 3))
    ∧ Response.as_image boolImgLoad (Response.mk [("error", Json.num 3)])
        = Except.error (ClientError.invocationError (Json.num 3)) := by
  have h := (C10_typed_decode boolLoad boolImgLoad).1
    (Response.mk [("error", Json.num 3)]) (Json.num 3) rfl
  exact ⟨rfl, h.1, h.2.1, h.2.2⟩

/-- C7: the liveness probe returns true when the handle is absent or the
peek returns zero bytes (orderly peer half-close); it returns false
without consuming bytes when the peek would block with `EAGAIN`; and a
`BlockingIOError` with any other errno, or any other `OSError`, is
propagated, not swallowed. -/
theorem C7_liveness :
    socket_is_closed none = Except.ok true
    ∧ (∀ s : Sock, s.recvBuf = [] → s.peerClosed = true →
        socket_is_closed (some s) = Except.ok true)
    ∧ (∀ s : Sock, s.recvBuf = [] → s.peerClosed = false →
        socket_is_closed (some s) = Except.ok false ∧ s.recvPeekDontwait.2 = s)
    ∧ (∀ s : Sock, s.recvPeekDontwait.2 = s)
    ∧ (∀ e : Nat, e ≠ eAGAIN →
        socket_is_closed_body (RecvOutcome.blockingIOError e)
          = Except.error ClientError.connectionError)
    ∧ socket_is_closed_body RecvOutcome.osError
        = Except.error ClientError.connectionError := by
  refine ⟨rfl, ?_, ?_, ?_, ?_, rfl⟩
  · intro s hbuf hclosed
    simp [socket_is_closed, Sock.recvPeekDontwait, hbuf, hclosed, socket_is_closed_body]
  · intro s hbuf hclosed
    constructor
    · simp [socket_is_closed, Sock.recvPeekDontwait, hbuf, hclosed, socket_is_closed_body,
        eAGAIN]
    · simp [Sock.recvPeekDontwait, hbuf, hclosed]
  · intro s
    unfold Sock.recvPeekDontwait
    cases s.recvBuf with
    | nil => by_cases h : s.peerClosed <;> simp [h]
    | cons b rest => rfl
  · intro e he
    simp [socket_is_closed_body, he]

/-- C7 witness: the probe run on concrete sockets and outcomes. -/
theorem C7_witness :
    socket_is_closed (some ⟨0, [], true⟩) = Except.ok true
    ∧ (socket_is_closed (some ⟨0, [], false⟩) = Except.ok false
        ∧ (Sock.mk 0 [] false).recvPeekDontwait.2 = ⟨0, [], false⟩)
    ∧ socket_is_closed_body (RecvOutcome.blockingIOError 32)
        = Except.error ClientError.connectionError := by
  refine ⟨?_, ?_, ?_⟩
  · exact C7_liveness.2.1 ⟨0, [], true⟩ rfl rfl
  · exact C7_liveness.2.2.1 ⟨0, [], false⟩ rfl rfl
  · exact C7_liveness.2.2.2.2.1 32 (by decide)

/-- C8: the send path opens a new TCP connection exactly when the
liveness probe reports the current handle closed (an absent handle
counts as closed) and otherwise reuses the existing handle unchanged; a
reconnect opens exactly one new connection. -/
theorem C8_connection_reuse :
    (∀ st : ConnState, socket_is_closed st.sock = Except.ok false →
        ensure_connected st = Except.ok st)
    ∧ (∀ st : ConnState, socket_is_closed st.sock = Except.ok true →
        ensure_connected st
          = Except.ok ⟨some (make_tcp_socket st.connects), st.connects + 1⟩)
    ∧ (∀ st : ConnState, st.sock = none →
        ensure_connected st
          = Except.ok ⟨some (make_tcp_socket st.connects), st.connects + 1⟩)
    ∧ (∀ (st : ConnState) (s : Sock), st.sock = some s → s.recvBuf = [] →
        s.peerClosed = false → ensure_connected st = Except.ok st)
    ∧ (∀ (st : ConnState) (s : Sock), st.sock = some s → s.recvBuf = [] →
        s.peerClosed = true →
        ensure_connected st
          = Except.ok ⟨some (make_tcp_socket st.connects), st.connects + 1⟩) := by
  refine ⟨?_, ?_, ?_, ?_, ?_⟩
  · intro st h
    unfold ensure_connected
    rw [h]
  · intro st h
    unfold ensure_connected
    rw [h]
  · intro st h
    unfold ensure_connected
    rw [h]
    rfl
  · intro st s hs hbuf hclosed
    unfold ensure_connected
    rw [hs]
    simp [socket_is_closed, Sock.recvPeekDontwait, hbuf, hclosed, socket_is_closed_body,
      eAGAIN]
  · intro st s hs hbuf hclosed
    unfold ensure_connected
    rw [hs]
    simp [socket_is_closed, Sock.recvPeekDontwait, hbuf, hclosed, socket_is_closed_body]

/-- C8 witness: two sequential sends over an open socket reuse the same
state; a send after the peer closes performs exactly one reconnect. -/
theorem C8_witness :
    ensure_connected ⟨some ⟨0, [], false⟩, 1⟩ = Except.ok ⟨some ⟨0, [], false⟩, 1⟩
    ∧ ensure_connected ⟨some ⟨0, [], true⟩, 1⟩
        = Except.ok ⟨some (make_tcp_socket 1), 2⟩
    ∧ ensure_connected ⟨none, 0⟩ = Except.ok ⟨some (make_tcp_socket 0), 1⟩ := by
  refine ⟨?_, ?_, ?_⟩
  · exact C8_connection_reuse.2.2.2.1 ⟨some ⟨0, [], false⟩, 1⟩ ⟨0, [], false⟩ rfl rfl rfl
  · exact C8_connection_reuse.2.2.2.2 ⟨some ⟨0, [], true⟩, 1⟩ ⟨0, [], true⟩ rfl rfl rfl
  · exact C8_connection_reuse.2.2.1 ⟨none, 0⟩ rfl

/-- C9: encoding an image that carries no format tag sets the image
object's `format` attribute to `'tiff'` as a side effect visible to the
caller, in addition to producing the base64 text of the TIFF
serialization. -/
theorem C9_pack_pillow_mutates {Pix : Type} (imgSave : String → Pix → List Nat)
    (img : PImage Pix) (h : img.format = none) :
    (Request.pack_pillow imgSave img).1.format = some "tiff"
    ∧ (Request.pack_pillow imgSave img).2 = b64encode (imgSave "tiff" img.pix) := by
  unfold Request.pack_pillow
  rw [h]
  exact ⟨rfl, rfl⟩

/-- C9 witness: a concrete untagged image. -/
theorem C9_witness :
    (⟨none, false⟩ : PImage Bool).format = none
    ∧ (Request.pack_pillow boolImgSave ⟨none, false⟩).1.format = some "tiff"
    ∧ (Request.pack_pillow boolImgSave ⟨none, false⟩).2
        = b64encode (boolImgSave "tiff" false) := by
  have h := C9_pack_pillow_mutates boolImgSave (⟨none, false⟩ : PImage Bool) rfl
  exact ⟨rfl, h.1, h.2⟩

/-- C4: a facade invocation that supplies both positional and keyword
arguments is rejected with the usage error before any envelope
serialization or network I/O (the result is the error for every
connection state, serializer and transport configuration); calls that
are all-positional or all-keyword pass this check. -/
theorem C4_mixed_args_rejected {Arr Pix : Type} (npSave : Arr → List Nat)
    (imgSave : String → Pix → List Nat) (dumps : Envelope Arr Pix → List Char)
    (use_http : Bool) (uri : String) (port : Nat) (idv : Nat) (st : ConnState)
    (method : String) :
    (∀ (args : List (PVal Arr Pix)) (kwargs : List (String × PVal Arr Pix)),
        args ≠ [] → kwargs ≠ [] →
        Client.callMethodSend npSave imgSave dumps use_http uri port idv st method
          args kwargs = Except.error ClientError.usageError)
    ∧ (∀ args : List (PVal Arr Pix), args ≠ [] →
        facadeParams args ([] : List (String × PVal Arr Pix))
          = Except.ok (Params.positional args))
    ∧ (∀ kwargs : List (String × PVal Arr Pix),
        facadeParams ([] : List (PVal Arr Pix)) kwargs
          = Except.ok (Params.keyword kwargs)) := by
  refine ⟨?_, ?_, ?_⟩
  · intro args kwargs hargs hkwargs
    unfold Client.callMethodSend facadeParams
    have h1 : args.length ≠ 0 := by
      simpa using fun h => hargs (List.length_eq_zero.mp h)
    have h2 : kwargs.length ≠ 0 := by
      simpa using fun h => hkwargs (List.length_eq_zero.mp h)
    simp [h1, h2]
  · intro args hargs
    have h1 : args.length ≠ 0 := by
      simpa using fun h => hargs (List.length_eq_zero.mp h)
    simp [facadeParams, h1]
  · intro kwargs
    simp [facadeParams]

/-- C4 witness: one mixed call rejected, one all-positional and one
all-keyword call passing the check. -/
theorem C4_witness :
    Client.callMethodSend boolSave boolImgSave (fun _ => []) true "127.0.0.1" 8545 7
        ⟨none, 0⟩ "echo" [PVal.scalar (Json.num 5)] [("x", PVal.scalar (Json.num 5))]
      = Except.error ClientError.usageError
    ∧ facadeParams [(PVal.scalar (Json.num 5) : PVal Bool Bool)] []
        = Except.ok (Params.positional [PVal.scalar (Json.num 5)])
    ∧ facadeParams ([] : List (PVal Bool Bool)) [("x", PVal.scalar (Json.num 5))]
        = Except.ok (Params.keyword [("x", PVal.scalar (Json.num 5))]) := by
  have h := C4_mixed_args_rejected boolSave boolImgSave (fun _ => []) true "127.0.0.1"
    8545 7 ⟨none, 0⟩ "echo"
  exact ⟨h.1 _ _ (by decide) (by decide), h.2.1 _ (by decide), h.2.2 _⟩

/-- A response whose only entry is a text `result` unwraps to that
text. -/
theorem raise_or_get_result_str (s : List Char) :
    (Response.mk [("result", Json.str s)]).raise_or_get = Except.ok (Json.str s) := rfl

/-- `as_bytes` on a text `result` is the base64 decoding of the text. -/
theorem as_bytes_result_str (s : List Char) (bs : List Nat)
    (hdec : b64decode s = some bs) :
    (Response.mk [("result", Json.str s)]).as_bytes = Except.ok bs := by
  unfold Response.as_bytes
  rw [raise_or_get_result_str s]
  simp only []
  rw [hdec]

/-- C3: the codec round-trips.  Base64 decoding inverts base64 encoding
on every byte string, and the typed decoders (`np.load` over the
`np.save` serialization, `Image.open` over the saved bytes, both taken
as collaborator primitives satisfying their round-trip contract on the
value in question) recover the original value — with the image format
normalized to `'tiff'` when no format was set. -/
theorem C3_roundtrip {Arr Pix : Type} (bytes : List Nat)
    (hbytes : ∀ b ∈ bytes, b < 256)
    (npSave : Arr → List Nat) (npLoad : List Nat → Option Arr) (a : Arr)
    (hnpb : ∀ b ∈ npSave a, b < 256) (hnp : npLoad (npSave a) = some a)
    (imgSave : String → Pix → List Nat) (imgLoad : List Nat → Option (PImage Pix))
    (img : PImage Pix)
    (himgb : ∀ b ∈ imgSave (img.format.getD "tiff") img.pix, b < 256)
    (himg : imgLoad (imgSave (img.format.getD "tiff") img.pix)
        = some ⟨some (img.format.getD "tiff"), img.pix⟩) :
    b64decode (b64encode bytes) = some bytes
    ∧ Response.as_numpy npLoad
        (Response.mk [("result", Json.str (Request.pack_numpy npSave a))])
        = Except.ok a
    ∧ Response.as_image imgLoad
        (Response.mk [("result", Json.str ((Request.pack_pillow imgSave img).2))])
        = Except.ok ⟨some (img.format.getD "tiff"), img.pix⟩ := by
  refine ⟨b64_roundtrip bytes hbytes, ?_, ?_⟩
  · unfold Response.as_numpy Request.pack_numpy
    rw [as_bytes_result_str _ _ (b64_roundtrip (npSave a) hnpb)]
    simp only []
    rw [hnp]
  · obtain ⟨fmt, pix⟩ := img
    cases fmt with
    | none =>
      simp only [Option.getD] at himgb himg ⊢
      unfold Response.as_image
      rw [show (Request.pack_pillow imgSave ⟨none, pix⟩).2
          = b64encode (imgSave "tiff" pix) from rfl]
      rw [as_bytes_result_str _ _ (b64_roundtrip (imgSave "tiff" pix) himgb)]
      simp only []
      rw [himg]
    | some f =>
      simp only [Option.getD] at himgb himg ⊢
      unfold Response.as_image
      rw [show (Request.pack_pillow imgSave ⟨some f, pix⟩).2
          = b64encode (imgSave f pix) from rfl]
      rw [as_bytes_result_str _ _ (b64_roundtrip (imgSave f pix) himgb)]
      simp only []
      rw [himg]

/-- C3 witness: concrete bytes, a concrete boolean-array serializer pair
and a concrete untagged image run through the round-trip. -/
theorem C3_witness :
    b64decode (b64encode [0, 255, 7]) = some [0, 255, 7]
    ∧ Response.as_numpy boolLoad
        (Response.mk [("result", Json.str (Request.pack_numpy boolSave true))])
        = Except.ok true
    ∧ Response.as_image boolImgLoad
        (Response.mk [("result",
            Json.str ((Request.pack_pillow boolImgSave ⟨none, false⟩).2))])
        = Except.ok ⟨some ((none : Option String).getD "tiff"), false⟩ := by
  exact C3_roundtrip [0, 255, 7] (by decide) boolSave boolLoad true (by decide)
    (by decide) boolImgSave boolImgLoad ⟨none, false⟩ (by decide) (by decide)

/-- A concrete envelope with one structured binary parameter, for the C1
counterexample. -/
def exampleEnv : Envelope Bool Bool :=
  ⟨"echo", Params.keyword [("x", PVal.nparray true)], "2.0", none⟩

/-- C1 counterexample: after `Request.__init__` on an envelope holding
an ndarray parameter, `data` and `packed` are the same object (the same
heap address), and the envelope reachable from `data` no longer holds
the caller's original parameter values — refuting that the original
envelope is retained separately from the packed one. -/
theorem C1_counterexample :
    (Request.init boolSave boolImgSave ⟨[exampleEnv]⟩ 0).2.data
      = (Request.init boolSave boolImgSave ⟨[exampleEnv]⟩ 0).2.packed
    ∧ ((Request.init boolSave boolImgSave ⟨[exampleEnv]⟩ 0).1.objs.getD 0
        ⟨"", Params.positional [], "", none⟩).params ≠ exampleEnv.params := by
  decide

/-- C1 amended: `Request.data` and `Request.packed` alias one envelope
object; `pack` mutates it in place, so after construction the shared
object holds the codec-encoded text forms and the unencoded originals
are not retained. -/
theorem C1_packed_aliases_data {Arr Pix : Type} (npSave : Arr → List Nat)
    (imgSave : String → Pix → List Nat) (h : EnvHeap Arr Pix) (a : Nat)
    (ha : a < h.objs.length) :
    (Request.init npSave imgSave h a).2.data
      = (Request.init npSave imgSave h a).2.packed
    ∧ (Request.init npSave imgSave h a).1.objs.getD a
        ⟨"", Params.positional [], "", none⟩
      = Request.packEnvelope npSave imgSave
          (h.objs.getD a ⟨"", Params.positional [], "", none⟩) := by
  refine ⟨rfl, ?_⟩
  unfold Request.init
  simp [List.getD, List.getElem?_set, ha]

/-- C1 witness for the amended statement: the concrete one-envelope
heap. -/
theorem C1_witness :
    (0 < (EnvHeap.mk [exampleEnv]).objs.length)
    ∧ (Request.init boolSave boolImgSave ⟨[exampleEnv]⟩ 0).2.data
        = (Request.init boolSave boolImgSave ⟨[exampleEnv]⟩ 0).2.packed
    ∧ (Request.init boolSave boolImgSave ⟨[exampleEnv]⟩ 0).1.objs.getD 0
        ⟨"", Params.positional [], "", none⟩
      = Request.packEnvelope boolSave boolImgSave
          ((EnvHeap.mk [exampleEnv]).objs.getD 0 ⟨"", Params.positional [], "", none⟩) := by
  have h := C1_packed_aliases_data boolSave boolImgSave ⟨[exampleEnv]⟩ 0 (by decide)
  exact ⟨by decide, h.1, h.2⟩

/-- Relation between `bytes.index(b'\r\n\r\n')` and the bytes strictly
after the first separator occurrence: when the index exists, dropping it
keeps the separator itself, followed by the strictly-after bytes; when
it does not, there is no occurrence. -/
theorem indexOfSep_spec : ∀ l : List Nat,
    (indexOfSep l = none → afterSepB l = none)
    ∧ (∀ i, indexOfSep l = some i →
        ∃ t, afterSepB l = some t ∧ l.drop i = 13 :: 10 :: 13 :: 10 :: t)
  | [] => by
    constructor
    · intro _
      rfl
    · intro i hi
      simp [indexOfSep] at hi
  | b :: rest => by
    by_cases h : (b :: rest).take 4 = [13, 10, 13, 10]
    · constructor
      · intro hn
        simp only [indexOfSep] at hn
        rw [if_pos h] at hn
        exact Option.noConfusion hn
      · intro i hi
        simp only [indexOfSep] at hi
        rw [if_pos h] at hi
        injection hi with hi
        subst hi
        refine ⟨rest.drop 3, ?_, ?_⟩
        · simp only [afterSepB]
          rw [if_pos h]
        · have hsplit := List.take_append_drop 4 (b :: rest)
          rw [h] at hsplit
          calc (b :: rest).drop 0 = b :: rest := rfl
            _ = [13, 10, 13, 10] ++ (b :: rest).drop 4 := hsplit.symm
            _ = 13 :: 10 :: 13 :: 10 :: rest.drop 3 := rfl
    · have ih := indexOfSep_spec rest
      constructor
      · intro hn
        simp only [indexOfSep] at hn
        rw [if_neg h, Option.map_eq_none'] at hn
        simp only [afterSepB]
        rw [if_neg h]
        exact ih.1 hn
      · intro i hi
        simp only [indexOfSep] at hi
        rw [if_neg h, Option.map_eq_some'] at hi
        obtain ⟨j, hj, rfl⟩ := hi
        obtain ⟨t, ht, hd⟩ := ih.2 j hj
        refine ⟨t, ?_, ?_⟩
        · simp only [afterSepB]
          rw [if_neg h]
          exact ht
        · simpa using hd

/-- C6 counterexample: on the accumulated response `X\r\n\r\n5`, the
receive path's slice starts at the separator and keeps it, so it is not
the bytes strictly after the first separator occurrence. -/
theorem C6_counterexample :
    recvSliceHttp [88, 13, 10, 13, 10, 53] = Except.ok [13, 10, 13, 10, 53]
    ∧ afterSepB [88, 13, 10, 13, 10, 53] = some [53]
    ∧ recvSliceHttp [88, 13, 10, 13, 10, 53] ≠ Except.ok [53] := by
  refine ⟨rfl, by decide, ?_⟩
  rw [show recvSliceHttp [88, 13, 10, 13, 10, 53] = Except.ok [13, 10, 13, 10, 53]
    from rfl]
  simp

/-- C6 amended: the receive path takes the bytes starting at (and
including) the first occurrence of the CRLF-CRLF separator as the JSON
text — the four separator bytes, all JSON whitespace, followed by the
bytes strictly after the separator — and the absence of the separator is
a fatal framing error. -/
theorem C6_slice_from_separator (resp : List Nat) :
    (∀ t, afterSepB resp = some t →
        recvSliceHttp resp = Except.ok (13 :: 10 :: 13 :: 10 :: t))
    ∧ (afterSepB resp = none →
        recvSliceHttp resp = Except.error ClientError.framingError) := by
  constructor
  · intro t ht
    cases hi : indexOfSep resp with
    | none =>
      rw [(indexOfSep_spec resp).1 hi] at ht
      exact Option.noConfusion ht
    | some i =>
      obtain ⟨t', ht', hd⟩ := (indexOfSep_spec resp).2 i hi
      rw [ht] at ht'
      injection ht' with h'
      subst h'
      unfold recvSliceHttp
      rw [hi]
      show Except.ok (resp.drop i) = Except.ok (13 :: 10 :: 13 :: 10 :: t)
      rw [hd]
  · intro hn
    cases hi : indexOfSep resp with
    | none =>
      unfold recvSliceHttp
      rw [hi]
    | some i =>
      obtain ⟨t, ht, _⟩ := (indexOfSep_spec resp).2 i hi
      rw [hn] at ht
      exact Option.noConfusion ht
/-- C6 witness for the amended statement: the concrete response
`X\r\n\r\n5`. -/
theorem C6_witness :
    afterSepB [88, 13, 10, 13, 10, 53] = some [53]
    ∧ recvSliceHttp [88, 13, 10, 13, 10, 53] = Except.ok [13, 10, 13, 10, 53] := by
  refine ⟨by decide, ?_⟩
  exact (C6_slice_from_separator [88, 13, 10, 13, 10, 53]).1 [53] (by decide)

/-- UTF-8 encoding distributes over concatenation. -/
theorem utf8Bytes_append : ∀ l1 l2 : List Char,
    utf8Bytes (l1 ++ l2) = utf8Bytes l1 ++ utf8Bytes l2
  | [], l2 => by simp [utf8Bytes]
  | c :: cs, l2 => by
    simp only [List.cons_append, utf8Bytes, List.append_eq]
    rw [utf8Bytes_append cs l2, List.append_assoc]

/-- On ASCII text, UTF-8 encoding is one byte per character, the
character's code point. -/
theorem utf8Bytes_ascii : ∀ l : List Char, (∀ c ∈ l, c.toNat < 128) →
    utf8Bytes l = l.map Char.toNat
  | [], _ => rfl
  | c :: cs, h => by
    have hc : c.toNat < 128 := h c (by simp)
    simp only [utf8Bytes, List.map_cons, if_pos hc,
      utf8Bytes_ascii cs (fun x hx => h x (List.mem_cons_of_mem _ hx))]
    rfl

/-- A byte other than 13 at the head cannot start the separator. -/
theorem afterSepB_cons_ne (b : Nat) (l : List Nat) (hb : b ≠ 13) :
    afterSepB (b :: l) = afterSepB l := by
  simp only [afterSepB]
  rw [if_neg]
  simp [List.take_succ_cons, hb]

/-- Skipping a run of 13-free bytes leaves the separator search
unchanged. -/
theorem afterSepB_append_clean (xs l : List Nat) (h : ∀ b ∈ xs, b ≠ 13) :
    afterSepB (xs ++ l) = afterSepB l := by
  induction xs with
  | nil => rfl
  | cons b xs ih =>
    rw [List.cons_append, afterSepB_cons_ne b _ (h b (by simp))]
    exact ih (fun x hx => h x (List.mem_cons_of_mem _ hx))

/-- A CRLF followed by a byte other than 13 is not the separator. -/
theorem afterSepB_crlf (b : Nat) (l : List Nat) (hb : b ≠ 13) :
    afterSepB (13 :: 10 :: b :: l) = afterSepB (b :: l) := by
  have h1 : afterSepB (13 :: 10 :: b :: l) = afterSepB (10 :: b :: l) := by
    simp only [afterSepB]
    rw [if_neg]
    simp [List.take_succ_cons, hb]
  rw [h1, afterSepB_cons_ne 10 _ (by decide)]

/-- The separator itself is found at once, yielding the bytes after
it. -/
theorem afterSepB_found (l : List Nat) :
    afterSepB (13 :: 10 :: 13 :: 10 :: l) = some l := by
  simp only [afterSepB]
  rw [if_pos]
  · rfl
  · rfl

/-- Skipping one header segment: a CRLF followed by a 13-free run. -/
theorem afterSepB_seg (c : Nat) (cs l : List Nat) (hc : c ≠ 13)
    (hcs : ∀ x ∈ cs, x ≠ 13) :
    afterSepB ((13 :: 10 :: c :: cs) ++ l) = afterSepB l := by
  simp only [List.cons_append]
  rw [afterSepB_crlf c _ hc, afterSepB_cons_ne c _ hc]
  exact afterSepB_append_clean cs l hcs

/-- Decimal digit characters are ASCII and are not a carriage return. -/
theorem digitChar_props : ∀ d : Nat, (digitChar d).toNat < 128 ∧ (digitChar d).toNat ≠ 13 := by
  intro d
  unfold digitChar
  split <;> decide

/-- Decimal renderings are ASCII and contain no carriage return. -/
theorem natChars_props : ∀ n : Nat, ∀ c ∈ natChars n, c.toNat < 128 ∧ c.toNat ≠ 13 := by
  intro n
  induction n using Nat.strong_induction_on with
  | _ n ih =>
    intro c hc
    unfold natChars at hc
    by_cases h : n < 10
    · rw [dif_pos h] at hc
      simp only [List.mem_singleton] at hc
      subst hc
      exact digitChar_props n
    · rw [dif_neg h] at hc
      rw [List.mem_append] at hc
      cases hc with
      | inl hc => exact ih (n / 10) (Nat.div_lt_self (by omega) (by omega)) c hc
      | inr hc =>
        simp only [List.mem_singleton] at hc
        subst hc
        exact digitChar_props (n % 10)

/-- Walking the separator search through the HTTP request line and
header block: the first CRLF-CRLF occurrence is the blank line the
template ends with, so the search yields exactly the body, for any
13-free host bytes, port digits and content-length digits. -/
theorem afterSepB_http (u pd nd body : List Nat)
    (hu : ∀ x ∈ u, x ≠ 13) (hpd : ∀ x ∈ pd, x ≠ 13) (hnd : ∀ x ∈ nd, x ≠ 13) :
    afterSepB (bytesOf "POST / HTTP/1.1\r\nHost: " ++ u ++ bytesOf ":" ++ pd
      ++ bytesOf "\r\nUser-Agent: py-ujrpc\r\nAccept: */*\r\nConnection: keep-alive\r\nContent-Length: "
      ++ nd ++ bytesOf "\r\nContent-Type: application/json\r\n\r\n" ++ body)
      = some body := by
  have e1 : bytesOf "POST / HTTP/1.1\r\nHost: "
      = bytesOf "POST / HTTP/1.1" ++ ((13 :: 10 :: 72 :: bytesOf "ost: ") ++ []) := by
    decide
  have e3 : bytesOf "\r\nUser-Agent: py-ujrpc\r\nAccept: */*\r\nConnection: keep-alive\r\nContent-Length: "
      = (13 :: 10 :: 85 :: bytesOf "ser-Agent: py-ujrpc")
        ++ ((13 :: 10 :: 65 :: bytesOf "ccept: */*")
        ++ ((13 :: 10 :: 67 :: bytesOf "onnection: keep-alive")
        ++ ((13 :: 10 :: 67 :: bytesOf "ontent-Length: ") ++ []))) := by
    decide
  have e4 : bytesOf "\r\nContent-Type: application/json\r\n\r\n"
      = (13 :: 10 :: 67 :: bytesOf "ontent-Type: application/json")
        ++ (13 :: 10 :: 13 :: 10 :: []) := by
    decide
  rw [e1, e3, e4]
  simp only [List.append_assoc, List.nil_append]
  rw [afterSepB_append_clean (bytesOf "POST / HTTP/1.1") _ (by decide)]
  rw [afterSepB_seg 72 (bytesOf "ost: ") _ (by decide) (by decide)]
  rw [afterSepB_append_clean u _ hu]
  rw [afterSepB_append_clean (bytesOf ":") _ (by decide)]
  rw [afterSepB_append_clean pd _ hpd]
  rw [afterSepB_seg 85 (bytesOf "ser-Agent: py-ujrpc") _ (by decide) (by decide)]
  rw [afterSepB_seg 65 (bytesOf "ccept: */*") _ (by decide) (by decide)]
  rw [afterSepB_seg 67 (bytesOf "onnection: keep-alive") _ (by decide) (by decide)]
  rw [afterSepB_seg 67 (bytesOf "ontent-Length: ") _ (by decide) (by decide)]
  rw [afterSepB_append_clean nd _ hnd]
  rw [afterSepB_seg 67 (bytesOf "ontent-Type: application/json") _ (by decide) (by decide)]
  simp only [List.cons_append, List.nil_append]
  exact afterSepB_found body

/-- C5: in HTTP mode the Content-Length value written into the header
block — `len(request)` for the serialized JSON body, as `Client._send`
computes it — equals the exact byte length of the body that follows the
blank-line separator in the transmitted bytes.  The hypotheses hold for
every `json.dumps` output (ASCII with escaped control characters) and
every host string the template is built from. -/
theorem C5_content_length (uri : String) (port : Nat) (body : List Char)
    (huri : ∀ c ∈ uri.data, c.toNat < 128 ∧ c.toNat ≠ 13)
    (hbody : ∀ c ∈ body, c.toNat < 128 ∧ c.toNat ≠ 13) :
    afterSepB (utf8Bytes (httpTemplate uri port body.length ++ body))
      = some (utf8Bytes body)
    ∧ body.length = (utf8Bytes body).length := by
  have hbmap : utf8Bytes body = body.map Char.toNat :=
    utf8Bytes_ascii body (fun c hc => (hbody c hc).1)
  have humap : utf8Bytes uri.data = uri.data.map Char.toNat :=
    utf8Bytes_ascii uri.data (fun c hc => (huri c hc).1)
  have hport : utf8Bytes (natChars port) = (natChars port).map Char.toNat :=
    utf8Bytes_ascii _ (fun c hc => (natChars_props port c hc).1)
  have hlen : utf8Bytes (natChars body.length)
      = (natChars body.length).map Char.toNat :=
    utf8Bytes_ascii _ (fun c hc => (natChars_props body.length c hc).1)
  constructor
  · unfold httpTemplate
    simp only [utf8Bytes_append]
    rw [show utf8Bytes ("POST / HTTP/1.1\r\nHost: ").data
        = bytesOf "POST / HTTP/1.1\r\nHost: " from utf8Bytes_ascii _ (by decide)]
    rw [show utf8Bytes (":").data = bytesOf ":" from utf8Bytes_ascii _ (by decide)]
    rw [show utf8Bytes ("\r\nUser-Agent: py-ujrpc\r\nAccept: */*\r\nConnection: keep-alive\r\nContent-Length: ").data
        = bytesOf "\r\nUser-Agent: py-ujrpc\r\nAccept: */*\r\nConnection: keep-alive\r\nContent-Length: "
        from utf8Bytes_ascii _ (by decide)]
    rw [show utf8Bytes ("\r\nContent-Type: application/json\r\n\r\n").data
        = bytesOf "\r\nContent-Type: application/json\r\n\r\n"
        from utf8Bytes_ascii _ (by decide)]
    rw [humap, hport, hlen, hbmap]
    exact afterSepB_http (uri.data.map Char.toNat) ((natChars port).map Char.toNat)
      ((natChars body.length).map Char.toNat) (body.map Char.toNat)
      (fun x hx => by
        obtain ⟨c, hc, rfl⟩ := List.mem_map.mp hx
        exact (huri c hc).2)
      (fun x hx => by
        obtain ⟨c, hc, rfl⟩ := List.mem_map.mp hx
        exact (natChars_props port c hc).2)
      (fun x hx => by
        obtain ⟨c, hc, rfl⟩ := List.mem_map.mp hx
        exact (natChars_props body.length c hc).2)
  · rw [hbmap, List.length_map]

/-- C5 witness: the default host and port, with a small JSON body. -/
theorem C5_witness :
    (∀ c ∈ ("127.0.0.1").data, c.toNat < 128 ∧ c.toNat ≠ 13)
    ∧ (∀ c ∈ ("[5]").data, c.toNat < 128 ∧ c.toNat ≠ 13)
    ∧ afterSepB (utf8Bytes
        (httpTemplate "127.0.0.1" 8545 ("[5]").data.length ++ ("[5]").data))
        = some (utf8Bytes ("[5]").data)
    ∧ ("[5]").data.length = (utf8Bytes ("[5]").data).length := by
  have h := C5_content_length "127.0.0.1" 8545 ("[5]").data (by decide) (by decide)
  exact ⟨by decide, by decide, h.1, h.2⟩
